import Mathlib

/-!
Verification of the Airtable Clone Python SDK
(`src/backend/src/sdk/python/airtable_clone_sdk.py`).

The development shallowly embeds the SDK: JSON values are an inductive
type, the HTTP transport (the `requests` library) is an external function
from a dispatched request to an outcome, and each SDK method is a Lean
function from a transport and a client configuration to a `CallResult`
recording the configuration after the call, the requests dispatched, and
the outcome (success value, `APIError`, transport failure, or an
uncaught Python exception).
-/

/-- JSON values, as produced by `response.json()` and consumed by the
`json=` argument of `requests.request`.  Objects are association lists in
insertion order, matching Python dicts. -/
inductive JVal where
  | str : String → JVal
  | num : Int → JVal
  | bool : Bool → JVal
  | null : JVal
  | arr : List JVal → JVal
  | obj : List (String × JVal) → JVal
deriving Repr

/-- A Python dict of string keys and JSON values (insertion order kept). -/
abbrev JObj := List (String × JVal)

/-- The `files` mapping: form-field name to the opened file (identified by
its source path, the only datum `import_csv` supplies). -/
abbrev FilesMap := List (String × String)

/-- `dict.get`-style lookup in a JSON object. -/
def jlookup (fields : JObj) (k : String) : Option JVal :=
  fields.lookup k

/-- Python truthiness of an `Optional[str]`: `None` and `""` are falsy. -/
def truthyStr : Option String → Bool
  | none => false
  | some s => s != ""

/-- Python truthiness of an `Optional[Dict]`: `None` and `{}` are falsy. -/
def truthyObj : Option JObj → Bool
  | none => false
  | some l => !l.isEmpty

/-- Python truthiness of the optional `files` mapping. -/
def truthyFiles : Option FilesMap → Bool
  | none => false
  | some l => !l.isEmpty

/-- The client configuration held by `AirtableCloneSDK` (`__init__`):
`api_key`, `token`, `base_url`.  It is shared by reference with every
resource class; the embedding passes it explicitly and returns the
updated copy.  `token` is modelled at its declared type `Optional[str]`. -/
structure ClientConfig where
  api_key : Option String
  token : Option String
  base_url : String
deriving Repr, DecidableEq

/-- One HTTP request as handed to `requests.request` / `requests.get`.
`jsonBody` is the `json=` argument, `formData` the `data=` argument
(which this SDK never passes, so it is always `none`), `files` the
`files=` argument and `params` the `params=` argument. -/
structure HttpRequest where
  method : String
  url : String
  headers : List (String × String)
  jsonBody : Option JObj
  formData : Option JObj
  files : Option FilesMap
  params : Option JObj
deriving Repr

/-- A `requests.Response`: status code, raw body bytes (`response.content`)
and the result of `response.json()` — `none` when the body does not decode
as JSON (the decoder raises). -/
structure HttpResponse where
  status_code : Nat
  content : List Nat
  jsonVal : Option JVal
deriving Repr

/-- `requests.Response.ok`: true unless the status code is 4xx or 5xx. -/
def HttpResponse.ok (r : HttpResponse) : Bool :=
  decide (r.status_code < 400) || decide (600 ≤ r.status_code)

/-- A network-level failure raised by the transport itself
(connection refused, timeout, DNS): the exception `requests` raises
before any response exists. -/
structure TransportError where
  detail : String
deriving Repr, DecidableEq

/-- What one call to the transport produces: a response (any status), or
a network-level failure. -/
inductive TransportOutcome where
  | response : HttpResponse → TransportOutcome
  | failure : TransportError → TransportOutcome
deriving Repr

/-- The external HTTP transport (the `requests` library). -/
abbrev Transport := HttpRequest → TransportOutcome

/-- The `APIError` exception: message (whatever value
`error_data.get("message", ...)` produced), status code, and the raw
response. -/
structure APIError where
  message : JVal
  status_code : Nat
  response : HttpResponse
deriving Repr

/-- A successful return value: decoded JSON for every endpoint except
CSV export, which returns the raw bytes of `response.content`. -/
inductive RetVal where
  | json : JVal → RetVal
  | bytes : List Nat → RetVal
deriving Repr

/-- How one SDK call ends: a returned value, a raised `APIError`, a
propagated transport failure, a `json.JSONDecodeError` raised by
`response.json()` on a success response whose body is not JSON, or a
`KeyError`/`TypeError` raised while indexing into a decoded body
(`response["data"]["token"]` in `login`). -/
inductive SdkOutcome where
  | ok : RetVal → SdkOutcome
  | apiError : APIError → SdkOutcome
  | transportFailure : TransportError → SdkOutcome
  | decodeError : HttpResponse → SdkOutcome
  | shapeError : SdkOutcome
deriving Repr

/-- The observable effect of one SDK call: the configuration after the
call, the requests dispatched to the transport (in order), and the
outcome. -/
structure CallResult where
  cfg : ClientConfig
  trace : List HttpRequest
  outcome : SdkOutcome
deriving Repr

/-- The authentication headers built at the top of
`AirtableCloneSDK._request` (lines 57-61) and duplicated verbatim in
`ImportExport.export_csv` (lines 755-759): `X-API-Key` when `api_key` is
truthy, else `Authorization: Bearer <token>` when `token` is truthy,
else none. -/
def authHeaders (cfg : ClientConfig) : List (String × String) :=
  if truthyStr cfg.api_key then
    [("X-API-Key", cfg.api_key.getD "")]
  else if truthyStr cfg.token then
    [("Authorization", "Bearer " ++ cfg.token.getD "")]
  else
    []

/-- The single request `_request` hands to `requests.request`:
URL is `base_url` concatenated with `path`; headers are the auth headers
plus `Content-Type: application/json` exactly when `data and not files`
holds (Python truthiness); `json=` is `data` under the same condition and
`None` otherwise; `data=` (form fields) is never passed; `files=` and
`params=` are forwarded as given. -/
def mkRequest (cfg : ClientConfig) (method path : String)
    (data : Option JObj) (files : Option FilesMap) (params : Option JObj) :
    HttpRequest :=
  { method := method
    url := cfg.base_url ++ path
    headers := authHeaders cfg ++
      (if truthyObj data && !truthyFiles files then
        [("Content-Type", "application/json")] else [])
    jsonBody := if truthyObj data && !truthyFiles files then data else none
    formData := none
    files := files
    params := params }

/-- The error message computed on a non-ok response (lines 79-83 and
764-768): `response.json().get("message", "API request failed")`, with a
bare `except` mapping a failed decode — or a decoded body that is not a
dict, whose `.get` raises `AttributeError` — to the fallback string. -/
def errorMessageOf (r : HttpResponse) : JVal :=
  match r.jsonVal with
  | some (JVal.obj fields) =>
    match jlookup fields "message" with
    | some m => m
    | none => JVal.str "API request failed"
  | _ => JVal.str "API request failed"

/-- How `_request` (lines 67-88) turns the transport's outcome into the
call's outcome: a raised transport exception propagates; a non-ok
response raises `APIError{message, status_code, response}`; an ok
response returns `response.json()`, which raises a decode error when the
body is not JSON. -/
def dispatchOutcome : TransportOutcome → SdkOutcome
  | TransportOutcome.failure e => SdkOutcome.transportFailure e
  | TransportOutcome.response r =>
    if r.ok then
      match r.jsonVal with
      | some v => SdkOutcome.ok (RetVal.json v)
      | none => SdkOutcome.decodeError r
    else
      SdkOutcome.apiError
        { message := errorMessageOf r, status_code := r.status_code,
          response := r }

/-- `AirtableCloneSDK._request` (lines 40-88): build the request, hand it
to the transport exactly once, and normalize the outcome.  `_request`
never touches the client configuration. -/
def sdkRequest (t : Transport) (cfg : ClientConfig) (method path : String)
    (data : Option JObj) (files : Option FilesMap) (params : Option JObj) :
    CallResult :=
  let req := mkRequest cfg method path data files params
  { cfg := cfg, trace := [req], outcome := dispatchOutcome (t req) }

/-- `response["data"]["token"]` in `Auth.login`: `some tok` when the
decoded body is a dict with a `"data"` dict holding a string `"token"`;
`none` when the lookup raises (`KeyError`/`TypeError`).  The SDK declares
`token: Optional[str]`, so a non-string token value is outside the
modelled state space. -/
def extractToken (v : JVal) : Option String :=
  match v with
  | JVal.obj fields =>
    match jlookup fields "data" with
    | some (JVal.obj dataFields) =>
      match jlookup dataFields "token" with
      | some (JVal.str tok) => some tok
      | _ => none
    | _ => none
  | _ => none

/-- The statement `self.client.token = response["data"]["token"]` on
line 109, which runs only when `_request` returned (did not raise): on a
returned body it stores the extracted token into the shared config; when
the extraction raises, the exception propagates and the config is left
as it was.  On any raising outcome of `_request` the result is passed
through unchanged. -/
def loginPost (res : CallResult) : CallResult :=
  match res.outcome with
  | SdkOutcome.ok (RetVal.json v) =>
    match extractToken v with
    | some tok =>
      { res with cfg := { res.cfg with token := some tok } }
    | none => { res with outcome := SdkOutcome.shapeError }
  | _ => res

/-- `Auth.login` (lines 97-110): POST `/auth/login` with the credentials,
then store `response["data"]["token"]` into the shared config and return
the response. -/
def Auth.login (t : Transport) (cfg : ClientConfig)
    (email password : String) : CallResult :=
  loginPost (sdkRequest t cfg "POST" "/auth/login"
    (some [("email", JVal.str email), ("password", JVal.str password)])
    none none)

/-- `Auth.register` (line 112-122). -/
def Auth.register (t : Transport) (cfg : ClientConfig)
    (user_data : JObj) : CallResult :=
  sdkRequest t cfg "POST" "/auth/register" (some user_data) none none

/-- `Auth.get_profile` (line 124-131). -/
def Auth.get_profile (t : Transport) (cfg : ClientConfig) : CallResult :=
  sdkRequest t cfg "GET" "/auth/profile" none none none

/-- `Auth.create_api_key` (line 133-143). -/
def Auth.create_api_key (t : Transport) (cfg : ClientConfig)
    (api_key_data : JObj) : CallResult :=
  sdkRequest t cfg "POST" "/auth/api-keys" (some api_key_data) none none

/-- `Auth.list_api_keys` (line 145-152). -/
def Auth.list_api_keys (t : Transport) (cfg : ClientConfig) : CallResult :=
  sdkRequest t cfg "GET" "/auth/api-keys" none none none

/-- `Auth.delete_api_key` (line 154-164). -/
def Auth.delete_api_key (t : Transport) (cfg : ClientConfig)
    (api_key_id : String) : CallResult :=
  sdkRequest t cfg "DELETE" ("/auth/api-keys/" ++ api_key_id) none none none

/-- `Bases.create` (line 173-183). -/
def Bases.create (t : Transport) (cfg : ClientConfig)
    (base_data : JObj) : CallResult :=
  sdkRequest t cfg "POST" "/bases" (some base_data) none none

/-- `Bases.list` (line 185-192). -/
def Bases.list (t : Transport) (cfg : ClientConfig) : CallResult :=
  sdkRequest t cfg "GET" "/bases" none none none

/-- `Bases.get` (line 194-204). -/
def Bases.get (t : Transport) (cfg : ClientConfig)
    (base_id : String) : CallResult :=
  sdkRequest t cfg "GET" ("/bases/" ++ base_id) none none none

/-- `Bases.update` (line 206-217). -/
def Bases.update (t : Transport) (cfg : ClientConfig)
    (base_id : String) (base_data : JObj) : CallResult :=
  sdkRequest t cfg "PATCH" ("/bases/" ++ base_id) (some base_data) none none

/-- `Bases.delete` (line 219-229). -/
def Bases.delete (t : Transport) (cfg : ClientConfig)
    (base_id : String) : CallResult :=
  sdkRequest t cfg "DELETE" ("/bases/" ++ base_id) none none none

/-- `Bases.share` (line 231-242). -/
def Bases.share (t : Transport) (cfg : ClientConfig)
    (base_id : String) (share_data : JObj) : CallResult :=
  sdkRequest t cfg "POST" ("/bases/" ++ base_id ++ "/share")
    (some share_data) none none

/-- `Tables.create` (line 251-261). -/
def Tables.create (t : Transport) (cfg : ClientConfig)
    (table_data : JObj) : CallResult :=
  sdkRequest t cfg "POST" "/tables" (some table_data) none none

/-- `Tables.list` (line 263-273). -/
def Tables.list (t : Transport) (cfg : ClientConfig)
    (base_id : String) : CallResult :=
  sdkRequest t cfg "GET" ("/bases/" ++ base_id ++ "/tables") none none none

/-- `Tables.get` (line 275-285). -/
def Tables.get (t : Transport) (cfg : ClientConfig)
    (table_id : String) : CallResult :=
  sdkRequest t cfg "GET" ("/tables/" ++ table_id) none none none

/-- `Tables.update` (line 287-298). -/
def Tables.update (t : Transport) (cfg : ClientConfig)
    (table_id : String) (table_data : JObj) : CallResult :=
  sdkRequest t cfg "PATCH" ("/tables/" ++ table_id) (some table_data) none none

/-- `Tables.delete` (line 300-310). -/
def Tables.delete (t : Transport) (cfg : ClientConfig)
    (table_id : String) : CallResult :=
  sdkRequest t cfg "DELETE" ("/tables/" ++ table_id) none none none

/-- `Records.create` (line 319-330). -/
def Records.create (t : Transport) (cfg : ClientConfig)
    (table_id : String) (record_data : JObj) : CallResult :=
  sdkRequest t cfg "POST" ("/tables/" ++ table_id ++ "/records")
    (some record_data) none none

/-- `Records.list` (line 332-343): forwards `query_params` as `params=`. -/
def Records.list (t : Transport) (cfg : ClientConfig)
    (table_id : String) (query_params : Option JObj) : CallResult :=
  sdkRequest t cfg "GET" ("/tables/" ++ table_id ++ "/records")
    none none query_params

/-- `Records.get` (line 345-356). -/
def Records.get (t : Transport) (cfg : ClientConfig)
    (table_id record_id : String) : CallResult :=
  sdkRequest t cfg "GET" ("/tables/" ++ table_id ++ "/records/" ++ record_id)
    none none none

/-- `Records.update` (line 358-370). -/
def Records.update (t : Transport) (cfg : ClientConfig)
    (table_id record_id : String) (record_data : JObj) : CallResult :=
  sdkRequest t cfg "PATCH" ("/tables/" ++ table_id ++ "/records/" ++ record_id)
    (some record_data) none none

/-- `Records.delete` (line 372-383). -/
def Records.delete (t : Transport) (cfg : ClientConfig)
    (table_id record_id : String) : CallResult :=
  sdkRequest t cfg "DELETE"
    ("/tables/" ++ table_id ++ "/records/" ++ record_id) none none none

/-- `Records.bulk_create` (line 385-396): one POST to
`/tables/{table_id}/records/bulk` with body `{"records": records}`. -/
def Records.bulk_create (t : Transport) (cfg : ClientConfig)
    (table_id : String) (records : List JVal) : CallResult :=
  sdkRequest t cfg "POST" ("/tables/" ++ table_id ++ "/records/bulk")
    (some [("records", JVal.arr records)]) none none

/-- `Records.bulk_update` (line 398-409): one PATCH to
`/tables/{table_id}/records/bulk` with body `{"records": records}`. -/
def Records.bulk_update (t : Transport) (cfg : ClientConfig)
    (table_id : String) (records : List JVal) : CallResult :=
  sdkRequest t cfg "PATCH" ("/tables/" ++ table_id ++ "/records/bulk")
    (some [("records", JVal.arr records)]) none none

/-- `Records.bulk_delete` (line 411-422): one DELETE to
`/tables/{table_id}/records/bulk` with body `{"recordIds": record_ids}`. -/
def Records.bulk_delete (t : Transport) (cfg : ClientConfig)
    (table_id : String) (record_ids : List String) : CallResult :=
  sdkRequest t cfg "DELETE" ("/tables/" ++ table_id ++ "/records/bulk")
    (some [("recordIds", JVal.arr (record_ids.map JVal.str))]) none none

/-- `Fields.create` (line 431-442). -/
def Fields.create (t : Transport) (cfg : ClientConfig)
    (table_id : String) (field_data : JObj) : CallResult :=
  sdkRequest t cfg "POST" ("/tables/" ++ table_id ++ "/fields")
    (some field_data) none none

/-- `Fields.list` (line 444-454). -/
def Fields.list (t : Transport) (cfg : ClientConfig)
    (table_id : String) : CallResult :=
  sdkRequest t cfg "GET" ("/tables/" ++ table_id ++ "/fields") none none none

/-- `Fields.get` (line 456-467). -/
def Fields.get (t : Transport) (cfg : ClientConfig)
    (table_id field_id : String) : CallResult :=
  sdkRequest t cfg "GET" ("/tables/" ++ table_id ++ "/fields/" ++ field_id)
    none none none

/-- `Fields.update` (line 469-481). -/
def Fields.update (t : Transport) (cfg : ClientConfig)
    (table_id field_id : String) (field_data : JObj) : CallResult :=
  sdkRequest t cfg "PATCH" ("/tables/" ++ table_id ++ "/fields/" ++ field_id)
    (some field_data) none none

/-- `Fields.delete` (line 483-494). -/
def Fields.delete (t : Transport) (cfg : ClientConfig)
    (table_id field_id : String) : CallResult :=
  sdkRequest t cfg "DELETE" ("/tables/" ++ table_id ++ "/fields/" ++ field_id)
    none none none

/-- `Views.create` (line 503-514). -/
def Views.create (t : Transport) (cfg : ClientConfig)
    (table_id : String) (view_data : JObj) : CallResult :=
  sdkRequest t cfg "POST" ("/tables/" ++ table_id ++ "/views")
    (some view_data) none none

/-- `Views.list` (line 516-526). -/
def Views.list (t : Transport) (cfg : ClientConfig)
    (table_id : String) : CallResult :=
  sdkRequest t cfg "GET" ("/tables/" ++ table_id ++ "/views") none none none

/-- `Views.get` (line 528-539). -/
def Views.get (t : Transport) (cfg : ClientConfig)
    (table_id view_id : String) : CallResult :=
  sdkRequest t cfg "GET" ("/tables/" ++ table_id ++ "/views/" ++ view_id)
    none none none

/-- `Views.update` (line 541-553). -/
def Views.update (t : Transport) (cfg : ClientConfig)
    (table_id view_id : String) (view_data : JObj) : CallResult :=
  sdkRequest t cfg "PATCH" ("/tables/" ++ table_id ++ "/views/" ++ view_id)
    (some view_data) none none

/-- `Views.delete` (line 555-566). -/
def Views.delete (t : Transport) (cfg : ClientConfig)
    (table_id view_id : String) : CallResult :=
  sdkRequest t cfg "DELETE" ("/tables/" ++ table_id ++ "/views/" ++ view_id)
    none none none

/-- `Webhooks.create` (line 575-585). -/
def Webhooks.create (t : Transport) (cfg : ClientConfig)
    (webhook_data : JObj) : CallResult :=
  sdkRequest t cfg "POST" "/webhooks" (some webhook_data) none none

/-- `Webhooks.list` (line 587-597). -/
def Webhooks.list (t : Transport) (cfg : ClientConfig)
    (base_id : String) : CallResult :=
  sdkRequest t cfg "GET" ("/webhooks/base/" ++ base_id) none none none

/-- `Webhooks.get` (line 599-609). -/
def Webhooks.get (t : Transport) (cfg : ClientConfig)
    (webhook_id : String) : CallResult :=
  sdkRequest t cfg "GET" ("/webhooks/" ++ webhook_id) none none none

/-- `Webhooks.update` (line 611-622). -/
def Webhooks.update (t : Transport) (cfg : ClientConfig)
    (webhook_id : String) (webhook_data : JObj) : CallResult :=
  sdkRequest t cfg "PATCH" ("/webhooks/" ++ webhook_id)
    (some webhook_data) none none

/-- `Webhooks.delete` (line 624-634). -/
def Webhooks.delete (t : Transport) (cfg : ClientConfig)
    (webhook_id : String) : CallResult :=
  sdkRequest t cfg "DELETE" ("/webhooks/" ++ webhook_id) none none none

/-- `Webhooks.toggle_active` (line 636-647). -/
def Webhooks.toggle_active (t : Transport) (cfg : ClientConfig)
    (webhook_id : String) (active : Bool) : CallResult :=
  sdkRequest t cfg "PATCH" ("/webhooks/" ++ webhook_id ++ "/active")
    (some [("active", JVal.bool active)]) none none

/-- `Webhooks.get_deliveries` (line 649-660): `params={"limit": limit}`. -/
def Webhooks.get_deliveries (t : Transport) (cfg : ClientConfig)
    (webhook_id : String) (limit : Int) : CallResult :=
  sdkRequest t cfg "GET" ("/webhooks/" ++ webhook_id ++ "/deliveries")
    none none (some [("limit", JVal.num limit)])

/-- Python `dict.update`: keys already in `base` keep their position but
take the value from `extra`; keys new to `base` are appended in `extra`'s
order. -/
def pyDictUpdate (base extra : JObj) : JObj :=
  base.map (fun kv =>
    match jlookup extra kv.1 with
    | some v => (kv.1, v)
    | none => kv) ++
  extra.filter (fun kv => (jlookup base kv.1).isNone)

/-- Search `params`: `{"query": query}`, updated with `options` when the
latter is truthy (lines 680-682 and analogues). -/
def searchParams (query : String) (options : Option JObj) : JObj :=
  if truthyObj options then
    pyDictUpdate [("query", JVal.str query)] (options.getD [])
  else
    [("query", JVal.str query)]

/-- `Search.global_search` (line 669-683). -/
def Search.global_search (t : Transport) (cfg : ClientConfig)
    (query : String) (options : Option JObj) : CallResult :=
  sdkRequest t cfg "GET" "/search" none none (some (searchParams query options))

/-- `Search.base_search` (line 685-700). -/
def Search.base_search (t : Transport) (cfg : ClientConfig)
    (base_id query : String) (options : Option JObj) : CallResult :=
  sdkRequest t cfg "GET" ("/search/base/" ++ base_id) none none
    (some (searchParams query options))

/-- `Search.table_search` (line 702-717). -/
def Search.table_search (t : Transport) (cfg : ClientConfig)
    (table_id query : String) (options : Option JObj) : CallResult :=
  sdkRequest t cfg "GET" ("/search/table/" ++ table_id) none none
    (some (searchParams query options))

/-- `ImportExport.import_csv` (line 726-739): `files={"file": open(path)}`,
`data=options`, POST to `/import/csv/{table_id}`. -/
def ImportExport.import_csv (t : Transport) (cfg : ClientConfig)
    (table_id csv_file_path : String) (options : Option JObj) : CallResult :=
  sdkRequest t cfg "POST" ("/import/csv/" ++ table_id)
    options (some [("file", csv_file_path)]) none

/-- The request `export_csv` hands to `requests.get` (lines 752-761):
URL `{base_url}/export/csv/{table_id}`, the duplicated auth headers, no
body of any kind, `params=options`. -/
def exportRequest (cfg : ClientConfig) (table_id : String)
    (options : Option JObj) : HttpRequest :=
  { method := "GET"
    url := cfg.base_url ++ "/export/csv/" ++ table_id
    headers := authHeaders cfg
    jsonBody := none
    formData := none
    files := none
    params := options }

/-- How `export_csv` (lines 763-772) turns the transport's outcome into
the call's outcome: same error normalization as `_request`, but on
success it returns `response.content`, the raw bytes, with no JSON
decoding. -/
def exportOutcome : TransportOutcome → SdkOutcome
  | TransportOutcome.failure e => SdkOutcome.transportFailure e
  | TransportOutcome.response r =>
    if r.ok then
      SdkOutcome.ok (RetVal.bytes r.content)
    else
      SdkOutcome.apiError
        { message := errorMessageOf r, status_code := r.status_code,
          response := r }

/-- `ImportExport.export_csv` (line 741-772): its own GET with the same
auth-header logic and error normalization as `_request`, `params=options`,
returning `response.content` (the raw bytes) on success. -/
def ImportExport.export_csv (t : Transport) (cfg : ClientConfig)
    (table_id : String) (options : Option JObj) : CallResult :=
  let req := exportRequest cfg table_id options
  { cfg := cfg, trace := [req], outcome := exportOutcome (t req) }

/-- One SDK operation together with its caller-supplied arguments: one
constructor per public method of the resource classes (`Auth`, `Bases`,
`Tables`, `Records`, `Fields`, `Views`, `Webhooks`, `Search`,
`ImportExport`). -/
inductive SdkOp where
  | auth_login (email password : String)
  | auth_register (user_data : JObj)
  | auth_get_profile
  | auth_create_api_key (api_key_data : JObj)
  | auth_list_api_keys
  | auth_delete_api_key (api_key_id : String)
  | bases_create (base_data : JObj)
  | bases_list
  | bases_get (base_id : String)
  | bases_update (base_id : String) (base_data : JObj)
  | bases_delete (base_id : String)
  | bases_share (base_id : String) (share_data : JObj)
  | tables_create (table_data : JObj)
  | tables_list (base_id : String)
  | tables_get (table_id : String)
  | tables_update (table_id : String) (table_data : JObj)
  | tables_delete (table_id : String)
  | records_create (table_id : String) (record_data : JObj)
  | records_list (table_id : String) (query_params : Option JObj)
  | records_get (table_id record_id : String)
  | records_update (table_id record_id : String) (record_data : JObj)
  | records_delete (table_id record_id : String)
  | records_bulk_create (table_id : String) (records : List JVal)
  | records_bulk_update (table_id : String) (records : List JVal)
  | records_bulk_delete (table_id : String) (record_ids : List String)
  | fields_create (table_id : String) (field_data : JObj)
  | fields_list (table_id : String)
  | fields_get (table_id field_id : String)
  | fields_update (table_id field_id : String) (field_data : JObj)
  | fields_delete (table_id field_id : String)
  | views_create (table_id : String) (view_data : JObj)
  | views_list (table_id : String)
  | views_get (table_id view_id : String)
  | views_update (table_id view_id : String) (view_data : JObj)
  | views_delete (table_id view_id : String)
  | webhooks_create (webhook_data : JObj)
  | webhooks_list (base_id : String)
  | webhooks_get (webhook_id : String)
  | webhooks_update (webhook_id : String) (webhook_data : JObj)
  | webhooks_delete (webhook_id : String)
  | webhooks_toggle_active (webhook_id : String) (active : Bool)
  | webhooks_get_deliveries (webhook_id : String) (limit : Int)
  | search_global (query : String) (options : Option JObj)
  | search_base (base_id query : String) (options : Option JObj)
  | search_table (table_id query : String) (options : Option JObj)
  | ie_import_csv (table_id csv_file_path : String) (options : Option JObj)
  | ie_export_csv (table_id : String) (options : Option JObj)

/-- Run one SDK operation against a transport and a configuration, by
delegating to the embedded resource method. -/
def runOp (t : Transport) (cfg : ClientConfig) : SdkOp → CallResult
  | SdkOp.auth_login e pw => Auth.login t cfg e pw
  | SdkOp.auth_register d => Auth.register t cfg d
  | SdkOp.auth_get_profile => Auth.get_profile t cfg
  | SdkOp.auth_create_api_key d => Auth.create_api_key t cfg d
  | SdkOp.auth_list_api_keys => Auth.list_api_keys t cfg
  | SdkOp.auth_delete_api_key i => Auth.delete_api_key t cfg i
  | SdkOp.bases_create d => Bases.create t cfg d
  | SdkOp.bases_list => Bases.list t cfg
  | SdkOp.bases_get i => Bases.get t cfg i
  | SdkOp.bases_update i d => Bases.update t cfg i d
  | SdkOp.bases_delete i => Bases.delete t cfg i
  | SdkOp.bases_share i d => Bases.share t cfg i d
  | SdkOp.tables_create d => Tables.create t cfg d
  | SdkOp.tables_list i => Tables.list t cfg i
  | SdkOp.tables_get i => Tables.get t cfg i
  | SdkOp.tables_update i d => Tables.update t cfg i d
  | SdkOp.tables_delete i => Tables.delete t cfg i
  | SdkOp.records_create i d => Records.create t cfg i d
  | SdkOp.records_list i q => Records.list t cfg i q
  | SdkOp.records_get i r => Records.get t cfg i r
  | SdkOp.records_update i r d => Records.update t cfg i r d
  | SdkOp.records_delete i r => Records.delete t cfg i r
  | SdkOp.records_bulk_create i rs => Records.bulk_create t cfg i rs
  | SdkOp.records_bulk_update i rs => Records.bulk_update t cfg i rs
  | SdkOp.records_bulk_delete i rs => Records.bulk_delete t cfg i rs
  | SdkOp.fields_create i d => Fields.create t cfg i d
  | SdkOp.fields_list i => Fields.list t cfg i
  | SdkOp.fields_get i f => Fields.get t cfg i f
  | SdkOp.fields_update i f d => Fields.update t cfg i f d
  | SdkOp.fields_delete i f => Fields.delete t cfg i f
  | SdkOp.views_create i d => Views.create t cfg i d
  | SdkOp.views_list i => Views.list t cfg i
  | SdkOp.views_get i v => Views.get t cfg i v
  | SdkOp.views_update i v d => Views.update t cfg i v d
  | SdkOp.views_delete i v => Views.delete t cfg i v
  | SdkOp.webhooks_create d => Webhooks.create t cfg d
  | SdkOp.webhooks_list i => Webhooks.list t cfg i
  | SdkOp.webhooks_get i => Webhooks.get t cfg i
  | SdkOp.webhooks_update i d => Webhooks.update t cfg i d
  | SdkOp.webhooks_delete i => Webhooks.delete t cfg i
  | SdkOp.webhooks_toggle_active i a => Webhooks.toggle_active t cfg i a
  | SdkOp.webhooks_get_deliveries i l => Webhooks.get_deliveries t cfg i l
  | SdkOp.search_global q o => Search.global_search t cfg q o
  | SdkOp.search_base b q o => Search.base_search t cfg b q o
  | SdkOp.search_table i q o => Search.table_search t cfg i q o
  | SdkOp.ie_import_csv i p o => ImportExport.import_csv t cfg i p o
  | SdkOp.ie_export_csv i o => ImportExport.export_csv t cfg i o

/-- Is the operation `auth.login`, the one sanctioned config mutator? -/
def SdkOp.isLogin : SdkOp → Bool
  | SdkOp.auth_login _ _ => true
  | _ => false

/-- Is the operation the CSV export, the one raw-bytes endpoint? -/
def SdkOp.isExportCsv : SdkOp → Bool
  | SdkOp.ie_export_csv _ _ => true
  | _ => false

/-! ### Helper lemmas -/

theorem lookup_append_right_none (l₁ l₂ : List (String × String)) (k : String)
    (h : l₂.lookup k = none) : (l₁ ++ l₂).lookup k = l₁.lookup k := by
  induction l₁ with
  | nil => simpa using h
  | cons a as ih =>
    cases a with
    | mk a1 a2 =>
      by_cases hk : (k == a1)
      · simp [List.lookup, hk]
      · simp [List.lookup, hk, ih]

theorem contentTypeOpt_lookup_api (d : Option JObj) (f : Option FilesMap) :
    ((if truthyObj d && !truthyFiles f then
      [("Content-Type", "application/json")] else []) :
      List (String × String)).lookup "X-API-Key" = none := by
  split <;> simp [List.lookup]

theorem contentTypeOpt_lookup_auth (d : Option JObj) (f : Option FilesMap) :
    ((if truthyObj d && !truthyFiles f then
      [("Content-Type", "application/json")] else []) :
      List (String × String)).lookup "Authorization" = none := by
  split <;> simp [List.lookup]

theorem mkRequest_lookup_api (cfg : ClientConfig) (m p : String)
    (d : Option JObj) (f : Option FilesMap) (q : Option JObj) :
    (mkRequest cfg m p d f q).headers.lookup "X-API-Key" =
      (authHeaders cfg).lookup "X-API-Key" := by
  simp only [mkRequest]
  exact lookup_append_right_none _ _ _ (contentTypeOpt_lookup_api d f)

theorem mkRequest_lookup_auth (cfg : ClientConfig) (m p : String)
    (d : Option JObj) (f : Option FilesMap) (q : Option JObj) :
    (mkRequest cfg m p d f q).headers.lookup "Authorization" =
      (authHeaders cfg).lookup "Authorization" := by
  simp only [mkRequest]
  exact lookup_append_right_none _ _ _ (contentTypeOpt_lookup_auth d f)

theorem authHeaders_of_api_key (cfg : ClientConfig)
    (h : truthyStr cfg.api_key = true) :
    (authHeaders cfg).lookup "X-API-Key" = some (cfg.api_key.getD "") ∧
    (authHeaders cfg).lookup "Authorization" = none := by
  simp [authHeaders, h, List.lookup]

theorem authHeaders_of_token (cfg : ClientConfig)
    (h1 : truthyStr cfg.api_key = false) (h2 : truthyStr cfg.token = true) :
    (authHeaders cfg).lookup "Authorization" =
      some ("Bearer " ++ cfg.token.getD "") ∧
    (authHeaders cfg).lookup "X-API-Key" = none := by
  simp [authHeaders, h1, h2, List.lookup]

theorem authHeaders_of_neither (cfg : ClientConfig)
    (h1 : truthyStr cfg.api_key = false) (h2 : truthyStr cfg.token = false) :
    (authHeaders cfg).lookup "X-API-Key" = none ∧
    (authHeaders cfg).lookup "Authorization" = none := by
  simp [authHeaders, h1, h2]

theorem loginPost_trace (res : CallResult) :
    (loginPost res).trace = res.trace := by
  unfold loginPost
  split
  · split <;> rfl
  · rfl

theorem loginPost_cfg_api_key (res : CallResult) :
    (loginPost res).cfg.api_key = res.cfg.api_key := by
  unfold loginPost
  split
  · split <;> rfl
  · rfl

theorem loginPost_cfg_base_url (res : CallResult) :
    (loginPost res).cfg.base_url = res.cfg.base_url := by
  unfold loginPost
  split
  · split <;> rfl
  · rfl

theorem loginPost_pass (res : CallResult)
    (h : ∀ v, res.outcome ≠ SdkOutcome.ok (RetVal.json v)) :
    loginPost res = res := by
  unfold loginPost
  split
  next v heq => exact absurd heq (h v)
  next => rfl

theorem loginPost_cfg_of_apiError (res : CallResult) (e : APIError)
    (h : (loginPost res).outcome = SdkOutcome.apiError e) :
    (loginPost res).cfg = res.cfg := by
  unfold loginPost at h ⊢
  split at h
  next v heq =>
    split at h
    · simp at h
      rw [heq] at h
      exact absurd h (by simp)
    · simp at h
  next => rfl

/-- Every operation is either one plain `_request` call, or `login`, or
`export_csv`. -/
theorem runOp_shape (t : Transport) (cfg : ClientConfig) (op : SdkOp) :
    (∃ m p d f q, runOp t cfg op = sdkRequest t cfg m p d f q) ∨
    (∃ e pw, op = SdkOp.auth_login e pw) ∨
    (∃ i o, op = SdkOp.ie_export_csv i o) := by
  cases op <;>
    first
      | exact Or.inr (Or.inl ⟨_, _, rfl⟩)
      | exact Or.inr (Or.inr ⟨_, _, rfl⟩)
      | exact Or.inl ⟨_, _, _, _, _, rfl⟩

theorem runOp_headers_auth (t : Transport) (cfg : ClientConfig) (op : SdkOp)
    (req : HttpRequest) (h : req ∈ (runOp t cfg op).trace) :
    req.headers.lookup "X-API-Key" = (authHeaders cfg).lookup "X-API-Key" ∧
    req.headers.lookup "Authorization" =
      (authHeaders cfg).lookup "Authorization" := by
  rcases runOp_shape t cfg op with ⟨m, p, d, f, q, hop⟩ | ⟨e, pw, rfl⟩ |
    ⟨i, o, rfl⟩
  · rw [hop] at h
    simp only [sdkRequest, List.mem_singleton] at h
    subst h
    exact ⟨mkRequest_lookup_api cfg m p d f q, mkRequest_lookup_auth cfg m p d f q⟩
  · simp only [runOp, Auth.login, loginPost_trace, sdkRequest,
      List.mem_singleton] at h
    subst h
    exact ⟨mkRequest_lookup_api cfg _ _ _ _ _, mkRequest_lookup_auth cfg _ _ _ _ _⟩
  · simp only [runOp, ImportExport.export_csv, List.mem_singleton] at h
    subst h
    exact ⟨rfl, rfl⟩

theorem runOp_cfg_not_login (t : Transport) (cfg : ClientConfig) (op : SdkOp)
    (h : SdkOp.isLogin op = false) : (runOp t cfg op).cfg = cfg := by
  cases op <;> try rfl
  simp [SdkOp.isLogin] at h

theorem login_cfg_api_key (t : Transport) (cfg : ClientConfig)
    (e pw : String) : (Auth.login t cfg e pw).cfg.api_key = cfg.api_key := by
  unfold Auth.login
  rw [loginPost_cfg_api_key]
  rfl

theorem login_cfg_base_url (t : Transport) (cfg : ClientConfig)
    (e pw : String) : (Auth.login t cfg e pw).cfg.base_url = cfg.base_url := by
  unfold Auth.login
  rw [loginPost_cfg_base_url]
  rfl

theorem runOp_outcome_apiError (cfg : ClientConfig) (op : SdkOp)
    (r : HttpResponse) (h : r.ok = false) :
    (runOp (fun _ => TransportOutcome.response r) cfg op).outcome =
      SdkOutcome.apiError
        { message := errorMessageOf r, status_code := r.status_code,
          response := r } := by
  rcases runOp_shape (fun _ => TransportOutcome.response r) cfg op with
    ⟨m, p, d, f, q, hop⟩ | ⟨e, pw, rfl⟩ | ⟨i, o, rfl⟩
  · rw [hop]
    simp [sdkRequest, dispatchOutcome, h]
  · simp only [runOp, Auth.login]
    rw [loginPost_pass]
    · simp [sdkRequest, dispatchOutcome, h]
    · intro v
      simp [sdkRequest, dispatchOutcome, h]
  · simp [runOp, ImportExport.export_csv, exportOutcome, h]

theorem runOp_ok_json (cfg : ClientConfig) (op : SdkOp) (r : HttpResponse)
    (v : JVal) (hok : r.ok = true) (hv : r.jsonVal = some v)
    (hnl : SdkOp.isLogin op = false) (hne : SdkOp.isExportCsv op = false) :
    (runOp (fun _ => TransportOutcome.response r) cfg op).outcome =
      SdkOutcome.ok (RetVal.json v) := by
  rcases runOp_shape (fun _ => TransportOutcome.response r) cfg op with
    ⟨m, p, d, f, q, hop⟩ | ⟨e, pw, rfl⟩ | ⟨i, o, rfl⟩
  · rw [hop]
    simp [sdkRequest, dispatchOutcome, hok, hv]
  · simp [SdkOp.isLogin] at hnl
  · simp [SdkOp.isExportCsv] at hne

/-! ### Concrete samples used by witnesses and counterexamples -/

/-- A configuration with both credentials set. -/
def cfgBoth : ClientConfig :=
  { api_key := some "K", token := some "T",
    base_url := "http://localhost:3000/api/v1" }

/-- A configuration with no credentials. -/
def cfgNone : ClientConfig :=
  { api_key := none, token := none,
    base_url := "http://localhost:3000/api/v1" }

/-- A 200 login response `{"data":{"token":"T"}}`. -/
def respLoginOk : HttpResponse :=
  { status_code := 200, content := [],
    jsonVal := some (JVal.obj
      [("data", JVal.obj [("token", JVal.str "T")])]) }

/-- A 404 response with body `{"message":"not found"}`. -/
def resp404 : HttpResponse :=
  { status_code := 404, content := [],
    jsonVal := some (JVal.obj [("message", JVal.str "not found")]) }

/-- A 401 response with body `{"message":"bad credentials"}`. -/
def resp401 : HttpResponse :=
  { status_code := 401, content := [],
    jsonVal := some (JVal.obj [("message", JVal.str "bad credentials")]) }

/-- A 200 CSV response: two raw bytes, not valid JSON. -/
def respCsv : HttpResponse :=
  { status_code := 200, content := [104, 105], jsonVal := none }

/-- A 200 response whose JSON body lacks a `data.token` field. -/
def respNoToken : HttpResponse :=
  { status_code := 200, content := [],
    jsonVal := some (JVal.obj [("ok", JVal.bool true)]) }

/-! ### Claim theorems -/

/-- Claim C1: for every dispatched request of every SDK operation
(`export_csv` included), at most one authentication header is attached:
when `api_key` is set (Python-truthy, i.e. non-None and non-empty) the
request carries `X-API-Key` and never `Authorization`, even when `token`
is also set; else when `token` is set it carries
`Authorization: Bearer <token>` and never `X-API-Key`; else neither. -/
theorem auth_header_mutual_exclusion (t : Transport) (cfg : ClientConfig)
    (op : SdkOp) (req : HttpRequest) (h : req ∈ (runOp t cfg op).trace) :
    (truthyStr cfg.api_key = true →
      req.headers.lookup "X-API-Key" = some (cfg.api_key.getD "") ∧
      req.headers.lookup "Authorization" = none) ∧
    (truthyStr cfg.api_key = false → truthyStr cfg.token = true →
      req.headers.lookup "Authorization" =
        some ("Bearer " ++ cfg.token.getD "") ∧
      req.headers.lookup "X-API-Key" = none) ∧
    (truthyStr cfg.api_key = false → truthyStr cfg.token = false →
      req.headers.lookup "X-API-Key" = none ∧
      req.headers.lookup "Authorization" = none) := by
  obtain ⟨hx, ha⟩ := runOp_headers_auth t cfg op req h
  refine ⟨?_, ?_, ?_⟩
  · intro hk
    obtain ⟨h1, h2⟩ := authHeaders_of_api_key cfg hk
    exact ⟨hx.trans h1, ha.trans h2⟩
  · intro hk ht
    obtain ⟨h1, h2⟩ := authHeaders_of_token cfg hk ht
    exact ⟨ha.trans h1, hx.trans h2⟩
  · intro hk ht
    obtain ⟨h1, h2⟩ := authHeaders_of_neither cfg hk ht
    exact ⟨hx.trans h1, ha.trans h2⟩

/-- Witness for C1 at a concrete input: an `export_csv` request of a
client with both credentials set carries `X-API-Key: K` and no
`Authorization` header. -/
theorem auth_header_mutual_exclusion_witness :
    (exportRequest cfgBoth "tbl" none).headers.lookup "X-API-Key" =
      some "K" ∧
    (exportRequest cfgBoth "tbl" none).headers.lookup "Authorization" =
      none := by
  have h := (auth_header_mutual_exclusion
    (fun _ => TransportOutcome.response respCsv) cfgBoth
    (SdkOp.ie_export_csv "tbl" none) (exportRequest cfgBoth "tbl" none)
    (by simp [runOp, ImportExport.export_csv])).1 (by decide)
  simpa using h

/-- Claim C2: for every SDK call, a response with a non-success status
makes the call fail with an `APIError` whose `status_code` is the
response's status, whose raw response is the response itself, and whose
message is the body's decoded `message` field, falling back to
"API request failed" when the body is not JSON or the field is absent. -/
theorem api_error_normalization (cfg : ClientConfig) (op : SdkOp)
    (r : HttpResponse) (h : r.ok = false) :
    (runOp (fun _ => TransportOutcome.response r) cfg op).outcome =
      SdkOutcome.apiError
        { message := errorMessageOf r, status_code := r.status_code,
          response := r } ∧
    (∀ fields m, r.jsonVal = some (JVal.obj fields) →
      jlookup fields "message" = some m → errorMessageOf r = m) ∧
    (r.jsonVal = none → errorMessageOf r = JVal.str "API request failed") ∧
    (∀ fields, r.jsonVal = some (JVal.obj fields) →
      jlookup fields "message" = none →
      errorMessageOf r = JVal.str "API request failed") := by
  refine ⟨runOp_outcome_apiError cfg op r h, ?_, ?_, ?_⟩
  · intro fields m hv hm
    simp [errorMessageOf, hv, hm]
  · intro hv
    simp [errorMessageOf, hv]
  · intro fields hv hm
    simp [errorMessageOf, hv, hm]

/-- Witness for C2 at a concrete input: a 404 with `{"message":"not
found"}` makes `bases.list` fail with
`APIError{message="not found", statusCode=404, rawResponse=resp404}`. -/
theorem api_error_normalization_witness :
    (runOp (fun _ => TransportOutcome.response resp404) cfgNone
      SdkOp.bases_list).outcome =
      SdkOutcome.apiError
        { message := JVal.str "not found", status_code := 404,
          response := resp404 } :=
  (api_error_normalization cfgNone SdkOp.bases_list resp404 (by decide)).1

/-- Claim C8: no SDK operation other than `auth.login` changes the
client's own state (`api_key`, `token`, `base_url`), whatever the
transport does; and even `login` changes only the `token` field. -/
theorem login_only_mutator (t : Transport) (cfg : ClientConfig)
    (op : SdkOp) :
    (SdkOp.isLogin op = false → (runOp t cfg op).cfg = cfg) ∧
    (runOp t cfg op).cfg.api_key = cfg.api_key ∧
    (runOp t cfg op).cfg.base_url = cfg.base_url := by
  refine ⟨runOp_cfg_not_login t cfg op, ?_, ?_⟩
  · cases op <;> try rfl
    exact login_cfg_api_key t cfg _ _
  · cases op <;> try rfl
    exact login_cfg_base_url t cfg _ _

/-- Witness for C8 at a concrete input: a failing `bases.list` call
leaves the configuration exactly as it was. -/
theorem login_only_mutator_witness :
    (runOp (fun _ => TransportOutcome.response resp404) cfgBoth
      SdkOp.bases_list).cfg = cfgBoth :=
  (login_only_mutator (fun _ => TransportOutcome.response resp404) cfgBoth
    SdkOp.bases_list).1 rfl

/-- Claim C9: when the transport itself fails, every SDK call propagates
that failure in the transport's own shape — it is not wrapped into an
`APIError` — exactly one request was dispatched (no retry), and the
configuration is untouched. -/
theorem transport_failure_propagation (cfg : ClientConfig) (op : SdkOp)
    (e : TransportError) :
    (runOp (fun _ => TransportOutcome.failure e) cfg op).outcome =
      SdkOutcome.transportFailure e ∧
    (runOp (fun _ => TransportOutcome.failure e) cfg op).trace.length = 1 ∧
    (runOp (fun _ => TransportOutcome.failure e) cfg op).cfg = cfg := by
  rcases runOp_shape (fun _ => TransportOutcome.failure e) cfg op with
    ⟨m, p, d, f, q, hop⟩ | ⟨ee, pw, rfl⟩ | ⟨i, o, rfl⟩
  · rw [hop]
    exact ⟨rfl, rfl, rfl⟩
  · simp only [runOp, Auth.login]
    rw [loginPost_pass _ (by intro v; simp [sdkRequest, dispatchOutcome])]
    exact ⟨rfl, rfl, rfl⟩
  · exact ⟨rfl, rfl, rfl⟩

/-- Claim C10: an SDK call that fails with an `APIError` leaves the
configuration exactly as it was; in particular a `login` whose response
has a non-success status leaves the stored token unchanged, since the
token assignment runs only after `_request` returns. -/
theorem api_error_preserves_config (t : Transport) (cfg : ClientConfig)
    (op : SdkOp) (err : APIError)
    (h : (runOp t cfg op).outcome = SdkOutcome.apiError err) :
    (runOp t cfg op).cfg = cfg := by
  cases op <;> try rfl
  rename_i e pw
  simp only [runOp] at h ⊢
  unfold Auth.login at h ⊢
  rw [loginPost_cfg_of_apiError _ err h]
  rfl

/-- Witness for C10 at a concrete input: a `login` rejected with 401
leaves the (empty) stored credentials unchanged. -/
theorem api_error_preserves_config_witness :
    (runOp (fun _ => TransportOutcome.response resp401) cfgNone
      (SdkOp.auth_login "a@b.com" "pw")).cfg = cfgNone :=
  api_error_preserves_config (fun _ => TransportOutcome.response resp401)
    cfgNone (SdkOp.auth_login "a@b.com" "pw")
    { message := JVal.str "bad credentials", status_code := 401,
      response := resp401 } rfl

theorem lookup_append_first_none (l₁ l₂ : List (String × String)) (k : String)
    (h : l₁.lookup k = none) : (l₁ ++ l₂).lookup k = l₂.lookup k := by
  induction l₁ with
  | nil => rfl
  | cons a as ih =>
    cases a with
    | mk a1 a2 =>
      rw [List.cons_append]
      cases hk : (k == a1) with
      | true =>
        simp only [List.lookup, hk] at h
        exact Option.noConfusion h
      | false =>
        simp only [List.lookup, hk] at h ⊢
        exact ih h

theorem authHeaders_lookup_ct (cfg : ClientConfig) :
    (authHeaders cfg).lookup "Content-Type" = none := by
  unfold authHeaders
  split
  · simp [List.lookup]
  · split <;> simp [List.lookup]

/-- Claim C4: each bulk operation dispatches exactly one request to
`baseUrl ++ "/tables/{tableId}/records/bulk"` — `bulk_create` a POST with
body `{"records": [...]}` in the given order, `bulk_update` a PATCH with
body `{"records": [...]}`, `bulk_delete` a DELETE with body
`{"recordIds": [...]}` — never one request per item. -/
theorem bulk_ops_single_request (t : Transport) (cfg : ClientConfig)
    (table_id : String) (records : List JVal) (record_ids : List String) :
    (Records.bulk_create t cfg table_id records).trace =
      [mkRequest cfg "POST" ("/tables/" ++ table_id ++ "/records/bulk")
        (some [("records", JVal.arr records)]) none none] ∧
    (mkRequest cfg "POST" ("/tables/" ++ table_id ++ "/records/bulk")
        (some [("records", JVal.arr records)]) none none).method = "POST" ∧
    (mkRequest cfg "POST" ("/tables/" ++ table_id ++ "/records/bulk")
        (some [("records", JVal.arr records)]) none none).url =
      cfg.base_url ++ ("/tables/" ++ table_id ++ "/records/bulk") ∧
    (mkRequest cfg "POST" ("/tables/" ++ table_id ++ "/records/bulk")
        (some [("records", JVal.arr records)]) none none).jsonBody =
      some [("records", JVal.arr records)] ∧
    (Records.bulk_update t cfg table_id records).trace =
      [mkRequest cfg "PATCH" ("/tables/" ++ table_id ++ "/records/bulk")
        (some [("records", JVal.arr records)]) none none] ∧
    (mkRequest cfg "PATCH" ("/tables/" ++ table_id ++ "/records/bulk")
        (some [("records", JVal.arr records)]) none none).method = "PATCH" ∧
    (mkRequest cfg "PATCH" ("/tables/" ++ table_id ++ "/records/bulk")
        (some [("records", JVal.arr records)]) none none).jsonBody =
      some [("records", JVal.arr records)] ∧
    (Records.bulk_delete t cfg table_id record_ids).trace =
      [mkRequest cfg "DELETE" ("/tables/" ++ table_id ++ "/records/bulk")
        (some [("recordIds", JVal.arr (record_ids.map JVal.str))]) none none] ∧
    (mkRequest cfg "DELETE" ("/tables/" ++ table_id ++ "/records/bulk")
        (some [("recordIds", JVal.arr (record_ids.map JVal.str))]) none
        none).method = "DELETE" ∧
    (mkRequest cfg "DELETE" ("/tables/" ++ table_id ++ "/records/bulk")
        (some [("recordIds", JVal.arr (record_ids.map JVal.str))]) none
        none).jsonBody =
      some [("recordIds", JVal.arr (record_ids.map JVal.str))] :=
  ⟨rfl, rfl, rfl, rfl, rfl, rfl, rfl, rfl, rfl, rfl⟩

/-- Counterexample to claim C7 as stated: with the empty body mapping
present (and no files), the dispatched request — here
`auth.register({})` — carries no `Content-Type: application/json` header
and no JSON payload, because `_request` tests Python truthiness
(`if data and not files:`) and the empty dict is falsy. -/
theorem empty_body_content_type_counterexample :
    (Auth.register (fun _ => TransportOutcome.response respNoToken) cfgNone
      []).trace =
      [mkRequest cfgNone "POST" "/auth/register" (some []) none none] ∧
    (mkRequest cfgNone "POST" "/auth/register" (some [])
        none none).headers.lookup "Content-Type" ≠
      some "application/json" ∧
    (mkRequest cfgNone "POST" "/auth/register" (some [])
        none none).jsonBody = none := by
  refine ⟨rfl, ?_, rfl⟩
  intro h
  rw [show (mkRequest cfgNone "POST" "/auth/register" (some [])
    none none).headers.lookup "Content-Type" = none from rfl] at h
  exact Option.noConfusion h

/-- Claim C7 as amended: for every dispatched `_request` request, the
`Content-Type: application/json` header and the JSON payload are
attached exactly when the body mapping is present and non-empty and the
files mapping is absent or empty; otherwise (body absent or empty, or
files non-empty) neither is attached.  Form fields (`data=`) are never
sent. -/
theorem json_content_type_characterization (t : Transport)
    (cfg : ClientConfig) (m p : String) (d : Option JObj)
    (f : Option FilesMap) (q : Option JObj) :
    (sdkRequest t cfg m p d f q).trace = [mkRequest cfg m p d f q] ∧
    (mkRequest cfg m p d f q).headers.lookup "Content-Type" =
      (if truthyObj d && !truthyFiles f then some "application/json"
       else none) ∧
    (mkRequest cfg m p d f q).jsonBody =
      (if truthyObj d && !truthyFiles f then d else none) ∧
    (mkRequest cfg m p d f q).formData = none := by
  refine ⟨rfl, ?_, rfl, rfl⟩
  simp only [mkRequest]
  split
  · rw [lookup_append_first_none _ _ _ (authHeaders_lookup_ct cfg)]
    simp [List.lookup]
  · rw [lookup_append_first_none _ _ _ (authHeaders_lookup_ct cfg)]
    rfl

/-- Claim C3: when the transport answers the login POST with a success
body `{"data":{"token": tok}}`, `auth.login` mutates the stored token to
`tok` (changing nothing else), and — when the token is non-empty and
`api_key` is unset — every request dispatched afterwards with the updated
configuration carries `Authorization: Bearer tok`. -/
theorem login_stores_token_and_authorizes (cfg : ClientConfig)
    (email password tok : String) (r : HttpResponse) (hok : r.ok = true)
    (hv : r.jsonVal = some (JVal.obj
      [("data", JVal.obj [("token", JVal.str tok)])])) :
    (Auth.login (fun _ => TransportOutcome.response r) cfg email
      password).cfg = { cfg with token := some tok } ∧
    (Auth.login (fun _ => TransportOutcome.response r) cfg email
      password).cfg.token = some tok ∧
    (tok ≠ "" → truthyStr cfg.api_key = false →
      ∀ (t2 : Transport) (op : SdkOp) (req : HttpRequest),
        req ∈ (runOp t2
          (Auth.login (fun _ => TransportOutcome.response r) cfg email
            password).cfg op).trace →
        req.headers.lookup "Authorization" =
          some ("Bearer " ++ tok)) := by
  have hcfg : (Auth.login (fun _ => TransportOutcome.response r) cfg email
      password).cfg = { cfg with token := some tok } := by
    simp [Auth.login, loginPost, sdkRequest, dispatchOutcome, hok, hv,
      extractToken, jlookup, List.lookup]
  refine ⟨hcfg, by rw [hcfg], ?_⟩
  intro hne hapi t2 op req hreq
  rw [hcfg] at hreq
  rw [(runOp_headers_auth t2 _ op req hreq).2]
  have h2 : truthyStr ({ cfg with token := some tok } :
      ClientConfig).api_key = false := hapi
  have h3 : truthyStr ({ cfg with token := some tok } :
      ClientConfig).token = true := by
    simp [truthyStr, hne]
  rw [(authHeaders_of_token _ h2 h3).1]
  rfl

/-- Witness for C3 at a concrete input: logging in against a transport
returning `{"data":{"token":"T"}}` stores token `"T"`, and a subsequent
`bases.list` request carries `Authorization: Bearer T`. -/
theorem login_stores_token_and_authorizes_witness :
    (Auth.login (fun _ => TransportOutcome.response respLoginOk) cfgNone
      "a@b.com" "pw").cfg.token = some "T" ∧
    (mkRequest { cfgNone with token := some "T" } "GET" "/bases"
      none none none).headers.lookup "Authorization" =
      some ("Bearer " ++ "T") := by
  have h := login_stores_token_and_authorizes cfgNone "a@b.com" "pw" "T"
    respLoginOk (by decide) rfl
  refine ⟨h.2.1, ?_⟩
  refine h.2.2 (by decide) (by decide)
    (fun _ => TransportOutcome.response respLoginOk) SdkOp.bases_list
    (mkRequest { cfgNone with token := some "T" } "GET" "/bases"
      none none none) ?_
  rw [h.1]
  simp [runOp, Bases.list, sdkRequest]

/-- Claim C5 as amended: a success response makes `export_csv` return
exactly the raw bytes of the body, unparsed, even when they are not
valid JSON; every other operation returns the JSON-decoded response
body, except that `auth.login` raises a lookup error (and returns
nothing) when the decoded body lacks a `data.token` string — when the
extraction succeeds, `login` too returns the decoded body. -/
theorem export_returns_raw_bytes (cfg : ClientConfig) (table_id : String)
    (options : Option JObj) (r : HttpResponse) (hok : r.ok = true) :
    (ImportExport.export_csv (fun _ => TransportOutcome.response r) cfg
      table_id options).outcome = SdkOutcome.ok (RetVal.bytes r.content) ∧
    (∀ (op : SdkOp) (r2 : HttpResponse) (v : JVal),
      SdkOp.isExportCsv op = false → SdkOp.isLogin op = false →
      r2.ok = true → r2.jsonVal = some v →
      (runOp (fun _ => TransportOutcome.response r2) cfg op).outcome =
        SdkOutcome.ok (RetVal.json v)) ∧
    (∀ (e pw : String) (r3 : HttpResponse) (v : JVal) (tok : String),
      r3.ok = true → r3.jsonVal = some v → extractToken v = some tok →
      (Auth.login (fun _ => TransportOutcome.response r3) cfg e
        pw).outcome = SdkOutcome.ok (RetVal.json v)) := by
  refine ⟨?_, ?_, ?_⟩
  · simp [ImportExport.export_csv, exportOutcome, hok]
  · intro op r2 v he hl hok2 hv
    exact runOp_ok_json cfg op r2 v hok2 hv hl he
  · intro e pw r3 v tok hok3 hv hex
    simp [Auth.login, loginPost, sdkRequest, dispatchOutcome, hok3, hv, hex]

/-- Counterexample to claim C5 as stated: `auth.login` is not the CSV
export, yet against a success response whose JSON body lacks
`data.token` it does not return the JSON-decoded body — line 109
(`response["data"]["token"]`) raises a `KeyError` first. -/
theorem login_nonreturning_counterexample :
    (Auth.login (fun _ => TransportOutcome.response respNoToken) cfgNone
      "a@b.com" "pw").outcome = SdkOutcome.shapeError ∧
    (Auth.login (fun _ => TransportOutcome.response respNoToken) cfgNone
      "a@b.com" "pw").outcome ≠
      SdkOutcome.ok (RetVal.json (JVal.obj [("ok", JVal.bool true)])) := by
  have h : (Auth.login (fun _ => TransportOutcome.response respNoToken)
      cfgNone "a@b.com" "pw").outcome = SdkOutcome.shapeError := rfl
  refine ⟨h, ?_⟩
  rw [h]
  exact fun hc => SdkOutcome.noConfusion hc

/-- Witness for C5 at a concrete input: exporting against a 200 response
whose two raw bytes are not valid JSON returns exactly those bytes. -/
theorem export_returns_raw_bytes_witness :
    (ImportExport.export_csv (fun _ => TransportOutcome.response respCsv)
      cfgNone "tbl" none).outcome =
      SdkOutcome.ok (RetVal.bytes [104, 105]) :=
  (export_returns_raw_bytes cfgNone "tbl" none respCsv (by decide)).1

/-- Claim C6 evaluated at the failing input (code bug): `import_csv`
with a non-empty options mapping dispatches the multipart POST with the
file attached but the options silently dropped — when `files` is truthy,
`_request` passes `json=None` to the transport and never passes the
form-field argument `data=` at all — so neither form fields nor a JSON
payload carry the options.  (No `Content-Type: application/json` header
is added, as the claim says.) -/
theorem import_csv_drops_options :
    (ImportExport.import_csv
      (fun _ => TransportOutcome.response respNoToken) cfgNone "tbl1"
      "data.csv" (some [("delimiter", JVal.str ";")])).trace =
      [mkRequest cfgNone "POST" "/import/csv/tbl1"
        (some [("delimiter", JVal.str ";")])
        (some [("file", "data.csv")]) none] ∧
    (mkRequest cfgNone "POST" "/import/csv/tbl1"
        (some [("delimiter", JVal.str ";")])
        (some [("file", "data.csv")]) none).files =
      some [("file", "data.csv")] ∧
    (mkRequest cfgNone "POST" "/import/csv/tbl1"
        (some [("delimiter", JVal.str ";")])
        (some [("file", "data.csv")]) none).formData = none ∧
    (mkRequest cfgNone "POST" "/import/csv/tbl1"
        (some [("delimiter", JVal.str ";")])
        (some [("file", "data.csv")]) none).jsonBody = none ∧
    (mkRequest cfgNone "POST" "/import/csv/tbl1"
        (some [("delimiter", JVal.str ";")])
        (some [("file", "data.csv")]) none).headers.lookup
      "Content-Type" = none :=
  ⟨rfl, rfl, rfl, rfl, rfl⟩
